import Mathlib

/-!
Verification of the boot/run/shutdown trace subsystem
(src/sys/kern/kern_boottrace.c) against its specification.

The embedding is shallow and sequential: the atomic compare-and-set retry
loop of dotrace never loses a race in a sequential execution, so a single
successful iteration models it. Machine integers are modelled by Nat with
explicit modular arithmetic where the source wraps (the cursor wraps via
the explicit percent-size computation in the source, never via overflow on
the inputs considered here). Environment values read by the recorder
(cpuid, cycle counter, ticks, pid, rusage, current process names) are
passed in an Env record, one per call.
-/

namespace Boottrace

/-- Table size and name-length constants from kern_boottrace.c. -/
def BT_TABLE_DEFSIZE : Nat := 3000

def BT_TABLE_RUNSIZE : Nat := 2000

def BT_TABLE_SHTSIZE : Nat := 1000

def BT_TABLE_MINSIZE : Nat := 500

def BT_EVENT_NAMELEN : Nat := 40

def BT_EVENT_TDNAMELEN : Nat := 24

/-- One boot-time or shutdown-time event record (struct bt_event).
A tsc field of 0 is the unused-slot sentinel for the renderer. -/
structure BtEvent where
  tsc : Nat
  tick : Nat
  cpuid : Nat
  cputime : Nat
  inblock : Nat
  oublock : Nat
  pid : Int
  name : String
  tdname : String
deriving DecidableEq

/-- The all-zero event record, as left by zeroed allocation (M_ZERO). -/
def BtEvent.zero : BtEvent :=
  { tsc := 0, tick := 0, cpuid := 0, cputime := 0, inblock := 0,
    oublock := 0, pid := 0, name := "", tdname := "" }

/-- One trace table (struct bt). The table pointer is None while the
backing storage has not been allocated (table == NULL). The wrap field
keeps the uint32 reading of the source, which tests wrap == 0. -/
structure BT where
  size : Nat
  curr : Nat
  wrap : Nat
  drops_early : Nat
  drops_full : Nat
  table : Option (List BtEvent)
deriving DecidableEq

/-- Return statuses used by the subsystem (errno values in the source). -/
inductive Errno where
  | ok
  | ENOSPC
  | EINVAL
  | ENOMEM
deriving DecidableEq

/-- Values the recorder reads from the execution environment at one call:
processor id, cycle counter, tick count, pid, the critical-section and
proc0 test, the rusage counters, and the default thread/process names. -/
structure Env where
  cpuid : Nat
  tsc : Nat
  tick : Nat
  pid : Int
  isSystemOrCritical : Bool
  utime_sec : Nat
  utime_usec : Nat
  stime_sec : Nat
  stime_usec : Nat
  ru_inblock : Nat
  ru_oublock : Nat
  defaultTdname : String
  p_comm : String

/-- Model of strlcpy into a field of the given byte size: the copy keeps
at most size minus one characters, truncating silently. -/
def strlcpyTo (src : String) (size : Nat) : String :=
  src.take (size - 1)

/-- The record dotrace writes into the slot it claimed: context fields
from Env, cputime and the block counts zeroed for proc0 or critical
sections, names copied with strlcpy truncation. -/
def mkRecord (env : Env) (eventname tdname : String) : BtEvent :=
  { cpuid := env.cpuid,
    tsc := env.tsc,
    tick := env.tick,
    pid := env.pid,
    cputime := if env.isSystemOrCritical then 0 else
      env.utime_sec * 1000000 + env.utime_usec +
      env.stime_sec * 1000000 + env.stime_usec,
    inblock := if env.isSystemOrCritical then 0 else env.ru_inblock,
    oublock := if env.isSystemOrCritical then 0 else env.ru_oublock,
    name := strlcpyTo eventname BT_EVENT_NAMELEN,
    tdname := strlcpyTo tdname BT_EVENT_TDNAMELEN }

/-- dotrace from kern_boottrace.c: default the thread name when the caller
passed NULL; drop with ENOSPC when the table is unallocated
(drops_early) or when advancing the cursor would return it to 0 on a
non-wrapping table (drops_full); otherwise claim slot idx by moving the
cursor to nxt and fill the slot. -/
def dotrace (env : Env) (btp : BT) (eventname : String)
    (tdnameArg : Option String) : BT × Errno :=
  let tdname := tdnameArg.getD env.defaultTdname
  match btp.table with
  | none => ({ btp with drops_early := btp.drops_early + 1 }, Errno.ENOSPC)
  | some tbl =>
      let idx := btp.curr
      let nxt := (idx + 1) % btp.size
      if nxt = 0 ∧ btp.wrap = 0 then
        ({ btp with drops_full := btp.drops_full + 1 }, Errno.ENOSPC)
      else
        ({ btp with
            curr := nxt
            table := some (tbl.set idx (mkRecord env eventname tdname)) },
         Errno.ok)

/-- Which of the three tables a submission lands in. -/
inductive Phase where
  | boot
  | run
  | shut
deriving DecidableEq

/-- Whole-subsystem state: the three tables, the two one-way latches, and
the externally owned fatal-state flags read by the router. -/
structure SysState where
  bt : BT
  rt : BT
  st : BT
  bootdone : Bool
  shutdown : Bool
  rebooting : Bool
  panicstr : Bool
deriving DecidableEq

def getT (s : SysState) : Phase → BT
  | Phase.boot => s.bt
  | Phase.run => s.rt
  | Phase.shut => s.st

def setT (s : SysState) : Phase → BT → SysState
  | Phase.boot, b => { s with bt := b }
  | Phase.run, b => { s with rt := b }
  | Phase.shut, b => { s with st := b }

/-- Table selection exactly as boottrace writes it: start from the boot
table pointer, overwrite with the run table if bootdone, overwrite with
the shutdown table if shutdown or rebooting or panicstr. -/
def boottraceTable (s : SysState) : Phase :=
  let t := Phase.boot
  let t := if s.bootdone then Phase.run else t
  let t := if s.shutdown ∨ s.rebooting ∨ s.panicstr then Phase.shut else t
  t

/-- Dispatch a dotrace call to the table of the given phase. -/
def dotraceAt (env : Env) (s : SysState) (ph : Phase) (eventname : String)
    (tdname : Option String) : SysState × Errno :=
  let r := dotrace env (getT s ph) eventname tdname
  (setT s ph r.1, r.2)

/-- boottrace from kern_boottrace.c: route by the current latches and
fatal flags, then record. -/
def boottrace (env : Env) (s : SysState) (eventname : String)
    (tdname : Option String) : SysState × Errno :=
  dotraceAt env s (boottraceTable s) eventname tdname

/-- runtrace: record through boottrace, then set bootdone unconditionally
(also when the record call failed) and return the record status. -/
def runtrace (env : Env) (s : SysState) (eventname : String)
    (tdname : Option String) : SysState × Errno :=
  let r := boottrace env s eventname tdname
  ({ r.1 with bootdone := true }, r.2)

/-- shuttrace: set the shutdown latch, then record into the shutdown
table directly. -/
def shuttrace (env : Env) (s : SysState) (eventname : String)
    (tdname : Option String) : SysState × Errno :=
  let s1 := { s with shutdown := true }
  let r := dotrace env s1.st eventname tdname
  ({ s1 with st := r.1 }, r.2)

/-- boottrace_reset: submit a synthetic reset event through runtrace with
a NULL thread name; snprintf into a 64-byte buffer truncates to 63
characters. -/
def boottrace_reset (env : Env) (s : SysState) (actor : String) : SysState :=
  (runtrace env s (("reset: " ++ actor).take 63) none).1

/-- realloc of the run-table storage to newsize slots with M_ZERO: the
old contents are kept and the grown tail is zero-filled. The allocOk
argument is the allocation oracle; on failure realloc yields NULL, which
the source stores into rt.table before checking it. -/
def reallocTable (old : Option (List BtEvent)) (newsize : Nat) :
    Option (List BtEvent) :=
  let oldTbl := old.getD []
  some (oldTbl.take newsize ++
    List.replicate (newsize - oldTbl.length) BtEvent.zero)

/-- boottrace_resize from kern_boottrace.c: EINVAL when newsize is not
larger than the current run-table size; otherwise reallocate (storing the
result, NULL included, into rt.table), fail with ENOMEM on allocation
failure, else update rt.size and run boottrace_reset. The run-table
cursor is not touched on the success path. -/
def boottrace_resize (env : Env) (allocOk : Bool) (s : SysState)
    (newsize : Nat) : SysState × Errno :=
  if newsize ≤ s.rt.size then
    (s, Errno.EINVAL)
  else if allocOk = false then
    ({ s with rt := { s.rt with table := none } }, Errno.ENOMEM)
  else
    let s1 := { s with rt := { s.rt with
      table := reallocTable s.rt.table newsize
      size := newsize } }
    (boottrace_reset env s1 "boottrace_resize", Errno.ok)

/-- Accumulator of the boottrace_display walk. The rows field collects,
in output order, each data row the walk emits as the event record printed
together with its msecs and delta values; the remaining fields are the
local variables of the source loop. -/
structure DispState where
  first_msecs : Nat
  last_evtp : Option BtEvent
  last_msecs : Nat
  last_dmsecs : Nat
  last_printed : Bool
  rows : List (BtEvent × Nat × Nat)
deriving DecidableEq

/-- Initial values of the display loop locals. -/
def dispInit : DispState :=
  { first_msecs := 0, last_evtp := none, last_msecs := 0,
    last_dmsecs := 0, last_printed := false, rows := [] }

/-- One iteration of the boottrace_display loop body at slot i: skip the
zero-tsc sentinel; otherwise compute msecs and the delta to the previous
visited entry, emit under the threshold rule (flushing the previous entry
once as a landmark when it was suppressed), and update the loop locals. -/
def dispStep (tsc_freq dthres : Nat) (tbl : List BtEvent)
    (a : DispState) (i : Nat) : DispState :=
  let evtp := tbl.getD i BtEvent.zero
  if evtp.tsc = 0 then a
  else
    let msecs := evtp.tsc * 1000 / tsc_freq
    let dmsecs := if a.last_msecs ≠ 0 ∧ msecs > a.last_msecs then
      msecs - a.last_msecs else 0
    let emitted :=
      if dthres ≠ 0 ∧ dmsecs > dthres then
        (match a.last_evtp with
         | some le =>
             if a.last_printed = false then [(le, a.last_msecs, a.last_dmsecs)]
             else []
         | none => []) ++ [(evtp, msecs, dmsecs)]
      else if dthres = 0 then [(evtp, msecs, dmsecs)]
      else []
    { first_msecs := if a.first_msecs = 0 ∨ msecs < a.first_msecs then msecs
        else a.first_msecs
      last_evtp := some evtp
      last_msecs := msecs
      last_dmsecs := dmsecs
      last_printed := emitted ≠ []
      rows := a.rows ++ emitted }

/-- The slot indices the display loop visits, in order: starting at the
cursor, exactly size steps, wrapping once (the do-while loop runs until i
returns to curr, which for size at least 1 is exactly size iterations). -/
def dispIdxs (btp : BT) : List Nat :=
  (List.range btp.size).map (fun j => (btp.curr + j) % btp.size)

/-- boottrace_display from kern_boottrace.c, abstracted over the text
sink: the result is the list of emitted data rows (the header is implicit)
and the total_dmsecs footer value. -/
def boottrace_display (tsc_freq dthres : Nat) (btp : BT) :
    List (BtEvent × Nat × Nat) × Nat :=
  let tbl := btp.table.getD []
  let fin := (dispIdxs btp).foldl (dispStep tsc_freq dthres tbl) dispInit
  let total_dmsecs := if fin.last_msecs > fin.first_msecs then
    fin.last_msecs - fin.first_msecs else 0
  (fin.rows, total_dmsecs)

/-- The synthetic initial entry boottrace_init seeds into slot 0 of the
boot table: all numeric fields zero except cpuid (the pid field is left
from the zeroed allocation), names boottime and initial event. -/
def initialEntry (cpuid : Nat) : BtEvent :=
  { BtEvent.zero with
    cpuid := cpuid
    tdname := strlcpyTo "boottime" BT_EVENT_TDNAMELEN
    name := strlcpyTo "initial event" BT_EVENT_NAMELEN }

/-- boottrace_init from kern_boottrace.c: the boot table sized by the
tunable (at least BT_TABLE_MINSIZE, default BT_TABLE_DEFSIZE), zero
allocated, seeded with the initial entry and cursor 1; the run table
wrapping of size BT_TABLE_RUNSIZE; the shutdown table non-wrapping of
size BT_TABLE_SHTSIZE; every latch and flag still false. -/
def boottrace_init (cpuid : Nat) (tunable : Option Nat) : SysState :=
  let btsize := max (tunable.getD BT_TABLE_DEFSIZE) BT_TABLE_MINSIZE
  { bt :=
      { size := btsize, curr := 1, wrap := 0, drops_early := 0,
        drops_full := 0,
        table := some ((List.replicate btsize BtEvent.zero).set 0
          (initialEntry cpuid)) }
    rt :=
      { size := BT_TABLE_RUNSIZE, curr := 0, wrap := 1, drops_early := 0,
        drops_full := 0,
        table := some (List.replicate BT_TABLE_RUNSIZE BtEvent.zero) }
    st :=
      { size := BT_TABLE_SHTSIZE, curr := 0, wrap := 0, drops_early := 0,
        drops_full := 0,
        table := some (List.replicate BT_TABLE_SHTSIZE BtEvent.zero) }
    bootdone := false
    shutdown := false
    rebooting := false
    panicstr := false }

/-- boottrace_parse_message: split the administrative message at its
first colon into thread name and event name; without a colon the whole
message is the event name and the thread name defaults to the process
name. Returns the pair of eventname and tdname. -/
def boottrace_parse_message (p_comm message : String) : String × String :=
  match message.splitOn ":" with
  | [] => (message, p_comm)
  | [only] => (only, p_comm)
  | td :: rest => (String.intercalate ":" rest, td)

/-- Write path of the boottimes sysctl handler: parse the message, record
through boottrace, and convert an ENOSPC drop status to success before
returning it to the administrative caller. -/
def sysctl_boottrace (env : Env) (s : SysState) (message : String) :
    SysState × Errno :=
  let p := boottrace_parse_message env.p_comm message
  let r := boottrace env s p.1 (some p.2)
  (r.1, if r.2 = Errno.ENOSPC then Errno.ok else r.2)

/-- Write path of the runtimes sysctl handler, with the same ENOSPC to
success conversion. -/
def sysctl_runtrace (env : Env) (s : SysState) (message : String) :
    SysState × Errno :=
  let p := boottrace_parse_message env.p_comm message
  let r := runtrace env s p.1 (some p.2)
  (r.1, if r.2 = Errno.ENOSPC then Errno.ok else r.2)

/-- Write path of the shuttimes sysctl handler, with the same ENOSPC to
success conversion. -/
def sysctl_shuttrace (env : Env) (s : SysState) (message : String) :
    SysState × Errno :=
  let p := boottrace_parse_message env.p_comm message
  let r := shuttrace env s p.1 (some p.2)
  (r.1, if r.2 = Errno.ENOSPC then Errno.ok else r.2)

/-- Write path of the reset sysctl handler. -/
def sysctl_boottrace_reset (env : Env) (s : SysState) : SysState × Errno :=
  (boottrace_reset env s "sysctl_boottrace_reset", Errno.ok)

/-- Routing as the specification words it, for comparison with the
implementation in boottraceTable: shutdown latch or fatal state selects
the shutdown table; otherwise the boot table until boot_complete, the run
table after. -/
def specRoute (s : SysState) : Phase :=
  if s.shutdown ∨ s.rebooting ∨ s.panicstr then Phase.shut
  else if s.bootdone = false then Phase.boot
  else Phase.run

/-- Every state-changing operation the subsystem exposes, used to state
latch permanence across whole executions. -/
inductive Op where
  | plain (env : Env) (eventname : String) (tdname : Option String)
  | runT (env : Env) (eventname : String) (tdname : Option String)
  | shutT (env : Env) (eventname : String) (tdname : Option String)
  | reset (env : Env) (actor : String)
  | resize (env : Env) (allocOk : Bool) (newsize : Nat)
  | sysBoot (env : Env) (message : String)
  | sysRun (env : Env) (message : String)
  | sysShut (env : Env) (message : String)
  | sysReset (env : Env)

/-- State transition of one operation (the returned status dropped). -/
def step (s : SysState) : Op → SysState
  | Op.plain env ev td => (boottrace env s ev td).1
  | Op.runT env ev td => (runtrace env s ev td).1
  | Op.shutT env ev td => (shuttrace env s ev td).1
  | Op.reset env actor => boottrace_reset env s actor
  | Op.resize env allocOk n => (boottrace_resize env allocOk s n).1
  | Op.sysBoot env m => (sysctl_boottrace env s m).1
  | Op.sysRun env m => (sysctl_runtrace env s m).1
  | Op.sysShut env m => (sysctl_shuttrace env s m).1
  | Op.sysReset env => (sysctl_boottrace_reset env s).1

/-- Run a sequence of operations. -/
def runOps (s : SysState) : List Op → SysState
  | [] => s
  | op :: ops => runOps (step s op) ops

/-- One record submission: the environment at the call, the event name,
and the optional thread name. -/
def Sub : Type := Env × String × Option String

/-- The record a successful dotrace call writes for a submission. -/
def recordOf (x : Sub) : BtEvent :=
  mkRecord x.1 x.2.1 (x.2.2.getD x.1.defaultTdname)

/-- Feed a list of submissions to one table through dotrace, collecting
the statuses in order. -/
def runSubs (btp : BT) : List Sub → BT × List Errno
  | [] => (btp, [])
  | x :: rest =>
      let r := dotrace x.1 btp x.2.1 x.2.2
      let q := runSubs r.1 rest
      (q.1, r.2 :: q.2)

/-- The table contents in the logical oldest-first order the renderer
walks: slot at the cursor first, then forward with wraparound. -/
def readCirc (btp : BT) : List BtEvent :=
  (List.range btp.size).map
    (fun j => (btp.table.getD []).getD ((btp.curr + j) % btp.size)
      BtEvent.zero)

/-- The msecs values of the non-sentinel entries the display walk visits,
in visit order. -/
def visitedMsecs (tsc_freq : Nat) (btp : BT) : List Nat :=
  (dispIdxs btp).filterMap (fun i =>
    let e := (btp.table.getD []).getD i BtEvent.zero
    if e.tsc = 0 then none else some (e.tsc * 1000 / tsc_freq))

/-- The first_msecs value the display loop ends with, as a fold over the
visited msecs values: a running minimum that a zero value restarts. -/
def footFirst (l : List Nat) : Nat :=
  l.foldl (fun f m => if f = 0 ∨ m < f then m else f) 0

/-- Footer total as the claim words it: last visited msecs minus first
visited msecs, 0 when nothing is visited. -/
def specClaimTotal (tsc_freq : Nat) (btp : BT) : Nat :=
  match visitedMsecs tsc_freq btp with
  | [] => 0
  | m :: rest => (m :: rest).getLast (by simp) - m

/-- A wrapping table of capacity 2, starting empty with cursor 0. -/
def mkWrap2 : BT :=
  { size := 2, curr := 0, wrap := 1, drops_early := 0, drops_full := 0,
    table := some (List.replicate 2 BtEvent.zero) }

/-- A fixed environment for concrete instances. -/
def env0 : Env :=
  { cpuid := 0, tsc := 0, tick := 0, pid := 1, isSystemOrCritical := true,
    utime_sec := 0, utime_usec := 0, stime_sec := 0, stime_usec := 0,
    ru_inblock := 0, ru_oublock := 0, defaultTdname := "td", p_comm := "pc" }

/-- An event record that differs from the sentinel only in tsc and name. -/
def mkE (t : Nat) (nm : String) : BtEvent :=
  { BtEvent.zero with tsc := t, name := nm }

/-- A non-wrapping table with the given capacity and contents, cursor 0
and zeroed drop counters. -/
def mkStop (C : Nat) (tbl : List BtEvent) : BT :=
  { size := C, curr := 0, wrap := 0, drops_early := 0, drops_full := 0,
    table := some tbl }

/-- The shutdown table of the C6 counterexample: non-wrapping with room
for the next event, so a submission into it succeeds. -/
def st6 : BT :=
  { size := 2, curr := 0, wrap := 0, drops_early := 0, drops_full := 0,
    table := some (List.replicate 2 BtEvent.zero) }

/-- State with the shutdown latch already set but bootdone still false. -/
def s6 : SysState :=
  { bt := st6, rt := st6, st := st6, bootdone := false, shutdown := true,
    rebooting := false, panicstr := false }

/-- The five-entry table of the threshold-filter example: visited msecs
10, 15, 65, 67, 167, hence successive deltas 0, 5, 50, 2, 100 when the
cycle-counter frequency is 1000. -/
def tblC2 : BT :=
  { size := 5, curr := 0, wrap := 0, drops_early := 0, drops_full := 0,
    table := some [mkE 10 "e1", mkE 15 "e2", mkE 65 "e3", mkE 67 "e4",
      mkE 167 "e5"] }

/-- The run table of the resize scenario: capacity 5, cursor 3. -/
def rt3 : BT :=
  { size := 5, curr := 3, wrap := 1, drops_early := 0, drops_full := 0,
    table := some (List.replicate 5 BtEvent.zero) }

/-- State owning rt3 with boot already complete, so the reset event the
resize records is routed to the run table itself. -/
def s3 : SysState :=
  { bt := st6, rt := rt3, st := st6, bootdone := true, shutdown := false,
    rebooting := false, panicstr := false }

/-- A short execution used to instantiate the C4 statement: a plain
submission and a run-trace submission after the shutdown latch is set. -/
def ops0 : List Op := [Op.plain env0 "x" none, Op.runT env0 "y" none]

/-- The update of the pair of first_msecs and last_msecs when one
non-sentinel entry with the given msecs value is visited. -/
def numStep (p : Nat × Nat) (m : Nat) : Nat × Nat :=
  (if p.1 = 0 ∨ m < p.1 then m else p.1, m)

/-- The update of the pair of first_msecs and last_msecs at one slot. -/
def pairStep (freq : Nat) (tbl : List BtEvent) (p : Nat × Nat) (i : Nat) :
    Nat × Nat :=
  let e := tbl.getD i BtEvent.zero
  if e.tsc = 0 then p else numStep p (e.tsc * 1000 / freq)

/-- The three-entry table whose visited msecs run 10, 5, 20: the running
minimum the footer uses is 5 while the first visited value is 10. -/
def tblC7 : BT :=
  { size := 3, curr := 0, wrap := 0, drops_early := 0, drops_full := 0,
    table := some [mkE 10 "a", mkE 5 "b", mkE 20 "c"] }

/-- Every dotrace call returns either success or the ENOSPC drop status:
those are the only statuses steady-state tracing can produce. -/
theorem dotrace_status (env : Env) (btp : BT) (ev : String)
    (td : Option String) :
    (dotrace env btp ev td).2 = Errno.ok ∨
      (dotrace env btp ev td).2 = Errno.ENOSPC := by
  unfold dotrace
  rcases h : btp.table with _ | tbl <;> simp only [h]
  · simp
  · split
    · simp
    · simp

/-- The status boottrace returns is the status of the dotrace call it
dispatched. -/
theorem boottrace_status (env : Env) (s : SysState) (ev : String)
    (td : Option String) :
    (boottrace env s ev td).2 = Errno.ok ∨
      (boottrace env s ev td).2 = Errno.ENOSPC := by
  unfold boottrace dotraceAt
  exact dotrace_status env (getT s (boottraceTable s)) ev td

/-- C10: each administrative write endpoint converts the ENOSPC drop
status of the underlying record operation to success, so the caller of
the boottimes, runtimes and shuttimes handlers never observes a drop:
the write paths always return success. -/
theorem C10_admin_never_observes_drop :
    ∀ (env : Env) (s : SysState) (message : String),
      (sysctl_boottrace env s message).2 = Errno.ok ∧
      (sysctl_runtrace env s message).2 = Errno.ok ∧
      (sysctl_shuttrace env s message).2 = Errno.ok := by
  intro env s message
  refine ⟨?_, ?_, ?_⟩
  · unfold sysctl_boottrace
    rcases boottrace_status env s (boottrace_parse_message env.p_comm message).1
      (some (boottrace_parse_message env.p_comm message).2) with h | h <;>
      simp [h]
  · unfold sysctl_runtrace runtrace
    rcases boottrace_status env s (boottrace_parse_message env.p_comm message).1
      (some (boottrace_parse_message env.p_comm message).2) with h | h <;>
      simp [h]
  · unfold sysctl_shuttrace shuttrace
    rcases dotrace_status env { s with shutdown := true }.st
      (boottrace_parse_message env.p_comm message).1
      (some (boottrace_parse_message env.p_comm message).2) with h | h <;>
      simp [h]

/-- setT never touches the latches. -/
theorem setT_bootdone (s : SysState) (ph : Phase) (b : BT) :
    (setT s ph b).bootdone = s.bootdone := by
  cases ph <;> rfl

/-- setT never touches the shutdown latch. -/
theorem setT_shutdown (s : SysState) (ph : Phase) (b : BT) :
    (setT s ph b).shutdown = s.shutdown := by
  cases ph <;> rfl

/-- A plain boottrace submission leaves the bootdone latch unchanged. -/
theorem boottrace_bootdone (env : Env) (s : SysState) (ev : String)
    (td : Option String) :
    ((boottrace env s ev td).1).bootdone = s.bootdone := by
  unfold boottrace dotraceAt
  exact setT_bootdone s (boottraceTable s) _

/-- A plain boottrace submission leaves the shutdown latch unchanged. -/
theorem boottrace_shutdown (env : Env) (s : SysState) (ev : String)
    (td : Option String) :
    ((boottrace env s ev td).1).shutdown = s.shutdown := by
  unfold boottrace dotraceAt
  exact setT_shutdown s (boottraceTable s) _

/-- C6 counterexample: from a state whose shutdown latch is set and whose
bootdone latch is clear, a run-table submission is routed to the shutdown
table and succeeds there, yet it still sets the bootdone latch. This
refutes the part of the claim saying that submissions not routed to the
run table do not set the latch. -/
theorem C6_counterexample :
    specRoute s6 = Phase.shut ∧
    s6.bootdone = false ∧
    (runtrace env0 s6 "ev" none).2 = Errno.ok ∧
    ((runtrace env0 s6 "ev" none).1).st.curr = 1 ∧
    ((runtrace env0 s6 "ev" none).1).bootdone = true := by
  refine ⟨rfl, rfl, rfl, rfl, rfl⟩

/-- C6 amended: a run-trace submission always leaves bootdone true, for
every prior latch value and whether or not the record call succeeded or
was routed to the run table (so setting an already-true latch is a
no-op), while plain and shutdown submissions never change bootdone. -/
theorem C6_amended_latch :
    (∀ (env : Env) (s : SysState) (ev : String) (td : Option String),
        ((runtrace env s ev td).1).bootdone = true) ∧
    (∀ (env : Env) (s : SysState) (ev : String) (td : Option String),
        ((boottrace env s ev td).1).bootdone = s.bootdone) ∧
    (∀ (env : Env) (s : SysState) (ev : String) (td : Option String),
        ((shuttrace env s ev td).1).bootdone = s.bootdone) := by
  refine ⟨fun env s ev td => rfl, boottrace_bootdone,
    fun env s ev td => rfl⟩

/-- C2 counterexample: rendering the delta sequence 0, 5, 50, 2, 100 with
threshold 40 emits four data rows with deltas 5, 50, 2, 100. The claim
says three rows with the delta 5 and delta 2 rows never emitted and the
first row emitted; in fact both suppressed predecessors are flushed as
landmarks and the first row never appears. -/
theorem C2_counterexample :
    (boottrace_display 1000 40 tblC2).1.map (fun r => r.2.2) =
      [5, 50, 2, 100] ∧
    (boottrace_display 1000 40 tblC2).1.length ≠ 3 := by
  refine ⟨by decide, by decide⟩

/-- C2 amended: with threshold 40 over visited deltas 0, 5, 50, 2, 100
the render emits exactly four data rows, in order: the delta 5 row
flushed once as the landmark preceding the delta 50 row, the delta 50
row, the delta 2 row flushed once as the landmark preceding the delta 100
row, and the delta 100 row; the first (delta 0) row is never emitted. -/
theorem C2_amended_rows :
    (boottrace_display 1000 40 tblC2).1.map
        (fun r => (r.1.name, r.2.1, r.2.2)) =
      [("e2", 15, 5), ("e3", 65, 50), ("e4", 67, 2), ("e5", 167, 100)] := by
  decide

/-- C3: growing the run table from capacity 5 to 8 succeeds and records
the reset landmark, but the run-table cursor is not reset to 0: it keeps
its old value 3 and the landmark submission advances it to 4. The source
comment above boottrace_resize states that a resize implies resetting the
index to 0; no statement in the function does so. -/
theorem C3_resize_does_not_reset_cursor :
    (boottrace_resize env0 true s3 8).2 = Errno.ok ∧
    ((boottrace_resize env0 true s3 8).1).rt.size = 8 ∧
    ((boottrace_resize env0 true s3 8).1).rt.curr = 4 ∧
    ((boottrace_resize env0 true s3 8).1).rt.curr ≠ 0 ∧
    (boottrace_resize env0 false s3 8).2 = Errno.ENOMEM ∧
    ((boottrace_resize env0 false s3 8).1).rt.table = none ∧
    (boottrace_resize env0 true s3 5).2 = Errno.EINVAL ∧
    (boottrace_resize env0 true s3 5).1 = s3 := by
  refine ⟨rfl, rfl, rfl, by decide, rfl, rfl, rfl, rfl⟩

/-- A display step at a slot whose stored entry has the zero-tsc
sentinel changes nothing. -/
theorem dispStep_sentinel {tbl : List BtEvent} (h : ∀ e ∈ tbl, e.tsc = 0)
    (f d : Nat) (a : DispState) (i : Nat) : dispStep f d tbl a i = a := by
  have he : (tbl.getD i BtEvent.zero).tsc = 0 := by
    rcases Nat.lt_or_ge i tbl.length with hi | hi
    · rw [List.getD_eq_getElem _ _ hi]
      exact h _ (List.getElem_mem hi)
    · rw [List.getD_eq_default _ _ hi]
      rfl
  simp only [dispStep, he, eq_self_iff_true, if_true]

/-- Folding the display step over any index list of an all-sentinel
table keeps the accumulator. -/
theorem foldl_dispStep_sentinel {tbl : List BtEvent}
    (h : ∀ e ∈ tbl, e.tsc = 0) (f d : Nat) :
    ∀ (l : List Nat) (a : DispState),
      l.foldl (dispStep f d tbl) a = a := by
  intro l
  induction l with
  | nil => intro a; rfl
  | cons i rest ih =>
      intro a
      rw [List.foldl_cons, dispStep_sentinel h, ih]

/-- Rendering a table whose every stored entry carries the zero-tsc
sentinel emits no data rows and a footer total of 0, at every threshold
and counter frequency. -/
theorem display_sentinel (f d : Nat) (btp : BT) (tbl : List BtEvent)
    (ht : btp.table = some tbl) (h : ∀ e ∈ tbl, e.tsc = 0) :
    boottrace_display f d btp = ([], 0) := by
  unfold boottrace_display
  rw [ht]
  dsimp only [Option.getD]
  rw [foldl_dispStep_sentinel h f d (dispIdxs btp) dispInit]
  rfl

/-- Every entry of the freshly initialized boot table carries the
zero-tsc sentinel: the zeroed slots trivially, and the seeded initial
entry because boottrace_init stores tsc 0 into it. -/
theorem init_bt_all_sentinel (cpuid : Nat) (tunable : Option Nat) :
    ∀ e ∈ ((List.replicate
        (max (tunable.getD BT_TABLE_DEFSIZE) BT_TABLE_MINSIZE)
        BtEvent.zero).set 0 (initialEntry cpuid)), e.tsc = 0 := by
  intro e he
  rcases List.mem_or_eq_of_mem_set he with hm | hm
  · rw [List.eq_of_mem_replicate hm]
    rfl
  · rw [hm]
    rfl

/-- C5 counterexample: the dump (threshold 0) of the freshly initialized
boot table emits no data row at all, refuting the exactly-one-data-row
part of the claim: the seeded initial entry has the zero-tsc sentinel
and the renderer skips it. -/
theorem C5_counterexample :
    (boottrace_display 1000 0 (boottrace_init 0 none).bt).1.length = 0 ∧
    (boottrace_display 1000 0 (boottrace_init 0 none).bt).1.length ≠ 1 ∧
    (boottrace_display 1000 0 (boottrace_init 0 none).bt).2 = 0 := by
  have h := display_sentinel 1000 0 (boottrace_init 0 none).bt _ rfl
    (init_bt_all_sentinel 0 none)
  rw [h]
  refine ⟨rfl, by decide, rfl⟩

/-- C5 amended: a dump of a freshly initialized boot table produces the
header, zero data rows and a total-elapsed footer of 0, because the
seeded synthetic initial entry is stored with the zero-tsc sentinel the
renderer skips; this holds for every tunable size, seed cpuid and
counter frequency. -/
theorem C5_amended_fresh_dump (cpuid : Nat) (tunable : Option Nat)
    (freq : Nat) :
    boottrace_display freq 0 (boottrace_init cpuid tunable).bt = ([], 0) := by
  exact display_sentinel freq 0 _ _ rfl (init_bt_all_sentinel cpuid tunable)

/-- The routing the source computes by successive pointer overwrites
equals the cascade the specification words. -/
theorem boottraceTable_eq_specRoute (s : SysState) :
    boottraceTable s = specRoute s := by
  unfold boottraceTable specRoute
  cases hb : s.bootdone <;>
    by_cases hsd : (s.shutdown = true ∨ s.rebooting = true ∨
      s.panicstr = true) <;>
    simp [hb, hsd]

/-- The shutdown latch survives every operation of the subsystem. -/
theorem step_shutdown_mono (op : Op) (s : SysState)
    (h : s.shutdown = true) : (step s op).shutdown = true := by
  cases op with
  | plain env ev td => rw [step, boottrace_shutdown]; exact h
  | runT env ev td =>
      show ((runtrace env s ev td).1).shutdown = true
      unfold runtrace
      rw [show ({ (boottrace env s ev td).1 with bootdone := true } :
        SysState).shutdown = ((boottrace env s ev td).1).shutdown from rfl,
        boottrace_shutdown]
      exact h
  | shutT env ev td => rfl
  | reset env actor =>
      show ((runtrace env s _ none).1).shutdown = true
      unfold runtrace
      rw [show ({ (boottrace env s _ none).1 with bootdone := true } :
        SysState).shutdown = ((boottrace env s _ none).1).shutdown from rfl,
        boottrace_shutdown]
      exact h
  | resize env allocOk n =>
      show ((boottrace_resize env allocOk s n).1).shutdown = true
      unfold boottrace_resize
      split
      · exact h
      · split
        · exact h
        · unfold boottrace_reset runtrace
          rw [show ∀ (r : SysState × Errno),
              ({ r.1 with bootdone := true } : SysState).shutdown =
                (r.1).shutdown from fun r => rfl,
            boottrace_shutdown]
          exact h
  | sysBoot env m =>
      show ((sysctl_boottrace env s m).1).shutdown = true
      unfold sysctl_boottrace
      rw [show ∀ (r : SysState × Errno) (e : Errno),
          ((r.1, e) : SysState × Errno).1.shutdown = (r.1).shutdown from
          fun r e => rfl]
      rw [boottrace_shutdown]
      exact h
  | sysRun env m =>
      show ((sysctl_runtrace env s m).1).shutdown = true
      unfold sysctl_runtrace runtrace
      rw [show ∀ (u : SysState) (e : Errno),
          (({ u with bootdone := true }, e) : SysState × Errno).1.shutdown =
            u.shutdown from fun u e => rfl]
      rw [boottrace_shutdown]
      exact h
  | sysShut env m => rfl
  | sysReset env =>
      show ((runtrace env s _ none).1).shutdown = true
      unfold runtrace
      rw [show ({ (boottrace env s _ none).1 with bootdone := true } :
        SysState).shutdown = ((boottrace env s _ none).1).shutdown from rfl,
        boottrace_shutdown]
      exact h

/-- The shutdown latch survives every operation sequence. -/
theorem runOps_shutdown_mono : ∀ (ops : List Op) (s : SysState),
    s.shutdown = true → (runOps s ops).shutdown = true := by
  intro ops
  induction ops with
  | nil => intro s h; exact h
  | cons op rest ih =>
      intro s h
      exact ih (step s op) (step_shutdown_mono op s h)

/-- C4: phase routing. Every plain submission dispatches its record call
to the table the specification cascade selects (shutdown or fatal state
first, else boot until bootdone, else run); a shuttrace submission sets
the shutdown latch before recording; and from any state whose shutdown
latch is set, every operation sequence leaves the latch set and leaves
the routing cascade selecting the shutdown table, so no later submission
of any kind returns to boot or run routing. -/
theorem C4_routing :
    (∀ (env : Env) (s : SysState) (ev : String) (td : Option String),
        boottrace env s ev td = dotraceAt env s (specRoute s) ev td) ∧
    (∀ (env : Env) (s : SysState) (ev : String) (td : Option String),
        ((shuttrace env s ev td).1).shutdown = true) ∧
    (∀ (s : SysState) (ops : List Op), s.shutdown = true →
        (runOps s ops).shutdown = true ∧
          specRoute (runOps s ops) = Phase.shut) := by
  refine ⟨?_, ?_, ?_⟩
  · intro env s ev td
    unfold boottrace
    rw [boottraceTable_eq_specRoute]
  · intro env s ev td
    rfl
  · intro s ops h
    have hs := runOps_shutdown_mono ops s h
    refine ⟨hs, ?_⟩
    unfold specRoute
    simp [hs]

theorem C4_routing_witness :
    (runOps s6 ops0).shutdown = true ∧
      specRoute (runOps s6 ops0) = Phase.shut :=
  C4_routing.2.2 s6 ops0 rfl

/-- One successful dotrace step on a non-wrapping table whose cursor has
room before the wrap point: the slot at the cursor is claimed and filled
and the cursor advances by one. -/
theorem dotrace_stop_step (env : Env) (ev : String) (td : Option String)
    (btp : BT) (tbl : List BtEvent) (hw : btp.wrap = 0)
    (ht : btp.table = some tbl) (h : btp.curr + 1 < btp.size) :
    dotrace env btp ev td =
      ({ btp with
          curr := btp.curr + 1
          table := some (tbl.set btp.curr (recordOf (env, ev, td))) },
        Errno.ok) := by
  unfold dotrace
  rw [ht]
  dsimp only
  have hmod : (btp.curr + 1) % btp.size = btp.curr + 1 :=
    Nat.mod_eq_of_lt h
  have hcond : ¬((btp.curr + 1) % btp.size = 0 ∧ btp.wrap = 0) := by
    rw [hmod]
    intro hc
    exact Nat.succ_ne_zero btp.curr hc.1
  rw [if_neg hcond, hmod]
  rfl

/-- A dotrace call on a non-wrapping table whose cursor sits just before
the wrap point drops the event: only drops_full changes, slots and
cursor stay untouched. -/
theorem dotrace_stop_full (env : Env) (ev : String) (td : Option String)
    (btp : BT) (tbl : List BtEvent) (hw : btp.wrap = 0)
    (ht : btp.table = some tbl) (hC : 1 ≤ btp.size)
    (h : btp.curr + 1 = btp.size) :
    dotrace env btp ev td =
      ({ btp with drops_full := btp.drops_full + 1 }, Errno.ENOSPC) := by
  unfold dotrace
  rw [ht]
  dsimp only
  have hmod : (btp.curr + 1) % btp.size = 0 := by
    rw [h, Nat.mod_self]
  rw [if_pos ⟨hmod, hw⟩]

/-- Filling a non-wrapping table while the cursor stays short of the
wrap point: every submission succeeds, the cursor moves by the number of
submissions, and size, wrap and the existence of storage persist. -/
theorem runSubs_stop : ∀ (subs : List Sub) (btp : BT) (tbl : List BtEvent),
    btp.wrap = 0 → btp.table = some tbl →
    btp.curr + subs.length < btp.size →
    (∀ r ∈ (runSubs btp subs).2, r = Errno.ok) ∧
    (runSubs btp subs).1.curr = btp.curr + subs.length ∧
    (runSubs btp subs).1.size = btp.size ∧
    (runSubs btp subs).1.wrap = 0 ∧
    (runSubs btp subs).1.drops_full = btp.drops_full ∧
    ∃ t2, (runSubs btp subs).1.table = some t2 := by
  intro subs
  induction subs with
  | nil =>
      intro btp tbl hw ht hroom
      exact ⟨(by intro r hr; cases hr), rfl, rfl, hw, rfl, tbl, ht⟩
  | cons x rest ih =>
      intro btp tbl hw ht hroom
      simp only [List.length_cons] at hroom
      have hstep := dotrace_stop_step x.1 x.2.1 x.2.2 btp tbl hw ht
        (by omega)
      have hrun : runSubs btp (x :: rest) =
          ((runSubs (dotrace x.1 btp x.2.1 x.2.2).1 rest).1,
            (dotrace x.1 btp x.2.1 x.2.2).2 ::
              (runSubs (dotrace x.1 btp x.2.1 x.2.2).1 rest).2) := rfl
      rw [hrun, hstep]
      dsimp only
      have hrest := ih
        { btp with
            curr := btp.curr + 1
            table := some (tbl.set btp.curr (recordOf (x.1, x.2.1, x.2.2))) }
        (tbl.set btp.curr (recordOf (x.1, x.2.1, x.2.2))) hw rfl
        (by show btp.curr + 1 + rest.length < btp.size; omega)
      refine ⟨?_, ?_, hrest.2.2.1, hrest.2.2.2.1, hrest.2.2.2.2.1,
        hrest.2.2.2.2.2⟩
      · intro r hr
        rcases List.mem_cons.mp hr with h1 | h1
        · exact h1
        · exact hrest.1 r h1
      · rw [hrest.2.1]
        show btp.curr + 1 + rest.length = btp.curr + (rest.length + 1)
        omega

/-- C1 amended: on a non-wrapping table of capacity C at least 1 that
starts empty with cursor 0, the first C minus 1 submissions all succeed
and bring the cursor to C minus 1; the C-th submission (and so every
later one, since the drop mutates nothing but drops_full) returns the
ENOSPC drop status and leaves slots and cursor untouched. -/
theorem C1_amended_stop_fill (C : Nat) (hC : 1 ≤ C) (tbl : List BtEvent)
    (subs : List Sub) (hlen : subs.length = C - 1) (env : Env)
    (ev : String) (td : Option String) :
    (∀ r ∈ (runSubs (mkStop C tbl) subs).2, r = Errno.ok) ∧
    (runSubs (mkStop C tbl) subs).1.curr = C - 1 ∧
    dotrace env (runSubs (mkStop C tbl) subs).1 ev td =
      ({ (runSubs (mkStop C tbl) subs).1 with
          drops_full := (runSubs (mkStop C tbl) subs).1.drops_full + 1 },
        Errno.ENOSPC) := by
  have hfill := runSubs_stop subs (mkStop C tbl) tbl rfl rfl
    (by simp only [mkStop, hlen]; omega)
  rcases hfill with ⟨hok, hcurr, hsize, hwrap, hdrop, t2, ht2⟩
  have hcurr0 : (runSubs (mkStop C tbl) subs).1.curr = C - 1 := by
    rw [hcurr, hlen]
    simp [mkStop]
  have hsize0 : (runSubs (mkStop C tbl) subs).1.size = C := by
    rw [hsize]
    simp [mkStop]
  refine ⟨hok, hcurr0, ?_⟩
  exact dotrace_stop_full env ev td _ t2 hwrap ht2
    (by rw [hsize0]; exact hC) (by rw [hcurr0, hsize0]; omega)

theorem C1_amended_stop_fill_witness :
    (∀ r ∈ (runSubs (mkStop 2 (List.replicate 2 BtEvent.zero))
        [(env0, "a", none)]).2, r = Errno.ok) ∧
    (runSubs (mkStop 2 (List.replicate 2 BtEvent.zero))
        [(env0, "a", none)]).1.curr = 1 ∧
    dotrace env0 (runSubs (mkStop 2 (List.replicate 2 BtEvent.zero))
        [(env0, "a", none)]).1 "b" none =
      ({ (runSubs (mkStop 2 (List.replicate 2 BtEvent.zero))
            [(env0, "a", none)]).1 with
          drops_full := (runSubs (mkStop 2 (List.replicate 2 BtEvent.zero))
            [(env0, "a", none)]).1.drops_full + 1 },
        Errno.ENOSPC) :=
  C1_amended_stop_fill 2 (by decide) (List.replicate 2 BtEvent.zero)
    [(env0, "a", none)] rfl env0 "b" none

/-- C1 counterexample: with capacity 1 the very first submission into an
empty non-wrapping table already returns the ENOSPC drop status, so C
consecutive submissions do not succeed as claimed; the drop leaves slots
and cursor untouched and only increments drops_full. -/
theorem C1_counterexample :
    dotrace env0 (mkStop 1 [BtEvent.zero]) "e" none =
      ({ mkStop 1 [BtEvent.zero] with drops_full := 1 }, Errno.ENOSPC) := by
  rfl

/-- One dotrace step on a wrapping table always succeeds: the slot at
the cursor is claimed and filled and the cursor advances modulo the
capacity. -/
theorem dotrace_wrap_step (env : Env) (ev : String) (td : Option String)
    (btp : BT) (tbl : List BtEvent) (hw : btp.wrap ≠ 0)
    (ht : btp.table = some tbl) :
    dotrace env btp ev td =
      ({ btp with
          curr := (btp.curr + 1) % btp.size
          table := some (tbl.set btp.curr (recordOf (env, ev, td))) },
        Errno.ok) := by
  unfold dotrace
  rw [ht]
  dsimp only
  rw [if_neg (fun hc => hw hc.2)]
  rfl

/-- Indices reached while walking onward from the successor of a claimed
slot never hit the claimed slot again before the walk completes the
circle. -/
theorem wrap_index_ne (C c j : Nat) (hc : c < C) (hj : j < C - 1) :
    (c + 1 + j) % C ≠ c := by
  intro h
  rcases Nat.lt_or_ge (c + 1 + j) C with hlt | hge
  · rw [Nat.mod_eq_of_lt hlt] at h
    omega
  · have h2 : (c + 1 + j) % C = (c + 1 + j - C) % C :=
      Nat.mod_eq_sub_mod hge
    have h3 : c + 1 + j - C < C := by omega
    rw [h2, Nat.mod_eq_of_lt h3] at h
    omega

/-- Writing an event into the claimed slot and advancing the cursor
rotates the oldest-first view of the table: the oldest entry is shed and
the new event appended. -/
theorem readCirc_step (C c : Nat) (tbl : List BtEvent) (e : BtEvent)
    (hc : c < C) (hlen : tbl.length = C) :
    (List.range C).map
        (fun j => (tbl.set c e).getD (((c + 1) % C + j) % C) BtEvent.zero) =
      ((List.range C).map
        (fun j => tbl.getD ((c + j) % C) BtEvent.zero)).drop 1 ++ [e] := by
  have hC : 0 < C := Nat.lt_of_le_of_lt (Nat.zero_le c) hc
  rcases Nat.exists_eq_add_of_lt hC with ⟨m, hm⟩
  rw [Nat.zero_add] at hm
  subst hm
  have hsetlen : (tbl.set c e).length = m + 1 := by
    rw [List.length_set, hlen]
  have hidx : ∀ j, ((c + 1) % (m + 1) + j) % (m + 1) =
      (c + 1 + j) % (m + 1) := fun j => Nat.mod_add_mod (c + 1) (m + 1) j
  have hrhs : ((List.range (m + 1)).map
      (fun j => tbl.getD ((c + j) % (m + 1)) BtEvent.zero)).drop 1 =
      (List.range m).map
        (fun j => tbl.getD ((c + (j + 1)) % (m + 1)) BtEvent.zero) := by
    rw [List.range_succ_eq_map, List.map_cons, List.drop_succ_cons,
      List.drop_zero, List.map_map]
    rfl
  rw [hrhs, List.range_succ, List.map_append, List.map_singleton]
  congr 1
  · apply List.map_congr_left
    intro j hj
    have hjm : j < m := List.mem_range.mp hj
    rw [hidx j]
    have hne : (c + 1 + j) % (m + 1) ≠ c :=
      wrap_index_ne (m + 1) c j hc (by omega)
    have hbound : (c + 1 + j) % (m + 1) < (tbl.set c e).length := by
      rw [hsetlen]
      exact Nat.mod_lt _ (Nat.succ_pos m)
    have hbound2 : (c + 1 + j) % (m + 1) < tbl.length := by
      rw [hlen]
      exact Nat.mod_lt _ (Nat.succ_pos m)
    have hidx2 : c + (j + 1) = c + 1 + j := by omega
    rw [List.getD_eq_getElem _ _ hbound, hidx2,
      List.getD_eq_getElem _ _ hbound2]
    exact List.getElem_set_ne (l := tbl) (i := c)
      (j := (c + 1 + j) % (m + 1)) (fun hcontra => hne hcontra.symm)
      (a := e) hbound
  · rw [hidx m]
    have hcm : c + 1 + m = c + (m + 1) := by omega
    have hmod : (c + 1 + m) % (m + 1) = c := by
      rw [hcm, Nat.add_mod_right]
      exact Nat.mod_eq_of_lt hc
    rw [hmod]
    have hbound : c < (tbl.set c e).length := by
      rw [hsetlen]
      exact hc
    rw [List.getD_eq_getElem _ _ hbound, List.getElem_set_self hbound]

/-- Dropping one more element of a nonempty prefix commutes with the
append. -/
theorem drop_one_append {α : Type} (l m : List α) (n : Nat)
    (h : l ≠ []) : (l.drop 1 ++ m).drop n = (l ++ m).drop (n + 1) := by
  cases l with
  | nil => exact absurd rfl h
  | cons a t => rfl

/-- The oldest-first view has as many entries as the capacity. -/
theorem readCirc_length (btp : BT) : (readCirc btp).length = btp.size := by
  unfold readCirc
  rw [List.length_map, List.length_range]

/-- Feeding submissions to a wrapping table: every submission succeeds,
capacity, wrap policy and cursor bounds persist, and the oldest-first
view of the result is the original view extended by the records of the
submissions with the oldest entries shed, one per submission. -/
theorem runSubs_wrap : ∀ (subs : List Sub) (btp : BT) (tbl : List BtEvent),
    btp.wrap ≠ 0 → btp.table = some tbl → tbl.length = btp.size →
    btp.curr < btp.size →
    (∀ r ∈ (runSubs btp subs).2, r = Errno.ok) ∧
    (runSubs btp subs).1.size = btp.size ∧
    (runSubs btp subs).1.wrap = btp.wrap ∧
    (runSubs btp subs).1.curr < btp.size ∧
    (∃ t2, (runSubs btp subs).1.table = some t2 ∧
      t2.length = btp.size) ∧
    readCirc (runSubs btp subs).1 =
      (readCirc btp ++ subs.map recordOf).drop subs.length := by
  intro subs
  induction subs with
  | nil =>
      intro btp tbl hw ht hlen hc
      refine ⟨(by intro r hr; cases hr), rfl, rfl, hc, ⟨tbl, ht, hlen⟩, ?_⟩
      rw [List.map_nil, List.append_nil, List.length_nil, List.drop_zero]
      rfl
  | cons x rest ih =>
      intro btp tbl hw ht hlen hc
      have hC : 0 < btp.size := Nat.lt_of_le_of_lt (Nat.zero_le _) hc
      have hstep := dotrace_wrap_step x.1 x.2.1 x.2.2 btp tbl hw ht
      have hrun : runSubs btp (x :: rest) =
          ((runSubs (dotrace x.1 btp x.2.1 x.2.2).1 rest).1,
            (dotrace x.1 btp x.2.1 x.2.2).2 ::
              (runSubs (dotrace x.1 btp x.2.1 x.2.2).1 rest).2) := rfl
      rw [hrun, hstep]
      dsimp only
      have hrest := ih
        { btp with
            curr := (btp.curr + 1) % btp.size
            table := some (tbl.set btp.curr (recordOf (x.1, x.2.1, x.2.2))) }
        (tbl.set btp.curr (recordOf (x.1, x.2.1, x.2.2))) hw rfl
        (by show (tbl.set _ _).length = btp.size; rw [List.length_set, hlen])
        (by show (btp.curr + 1) % btp.size < btp.size
            exact Nat.mod_lt _ hC)
      have hview : readCirc
          { btp with
              curr := (btp.curr + 1) % btp.size
              table := some (tbl.set btp.curr
                (recordOf (x.1, x.2.1, x.2.2))) } =
          (readCirc btp).drop 1 ++ [recordOf (x.1, x.2.1, x.2.2)] := by
        unfold readCirc
        rw [ht]
        exact readCirc_step btp.size btp.curr tbl
          (recordOf (x.1, x.2.1, x.2.2)) hc hlen
      refine ⟨?_, hrest.2.1, hrest.2.2.1, hrest.2.2.2.1,
        hrest.2.2.2.2.1, ?_⟩
      · intro r hr
        rcases List.mem_cons.mp hr with h1 | h1
        · exact h1
        · exact hrest.1 r h1
      · rw [hrest.2.2.2.2.2, hview]
        have hne : readCirc btp ≠ [] := by
          intro hcon
          have := readCirc_length btp
          rw [hcon] at this
          simp at this
          omega
        rw [List.map_cons, List.length_cons, List.append_assoc,
          List.singleton_append, drop_one_append _ _ _ hne]
        rfl

/-- C8: on a wrapping table of capacity C with storage present and the
cursor in range, any sequence of more than C submissions all succeed,
and afterwards the oldest-first view of the table is exactly the records
of the C most recent submissions, in submission order. -/
theorem C8_wrap_retains_recent (btp : BT) (tbl : List BtEvent)
    (subs : List Sub) (hw : btp.wrap ≠ 0) (ht : btp.table = some tbl)
    (hlen : tbl.length = btp.size) (hc : btp.curr < btp.size)
    (hN : btp.size < subs.length) :
    (∀ r ∈ (runSubs btp subs).2, r = Errno.ok) ∧
    readCirc (runSubs btp subs).1 =
      (subs.map recordOf).drop (subs.length - btp.size) := by
  have h := runSubs_wrap subs btp tbl hw ht hlen hc
  refine ⟨h.1, ?_⟩
  rw [h.2.2.2.2.2]
  have hL : subs.length = (readCirc btp).length + (subs.length - btp.size) := by
    rw [readCirc_length]
    omega
  calc List.drop subs.length (readCirc btp ++ subs.map recordOf)
      = List.drop ((readCirc btp).length + (subs.length - btp.size))
          (readCirc btp ++ subs.map recordOf) := by rw [← hL]
    _ = List.drop (subs.length - btp.size) (subs.map recordOf) := by
        rw [← List.drop_drop, List.drop_left]

theorem C8_wrap_retains_recent_witness :
    (∀ r ∈ (runSubs (mkWrap2) [(env0, "a", none), (env0, "b", none),
        (env0, "c", none)]).2, r = Errno.ok) ∧
    readCirc (runSubs (mkWrap2) [(env0, "a", none), (env0, "b", none),
        (env0, "c", none)]).1 =
      ([(env0, "a", none), (env0, "b", none),
        (env0, "c", none)].map recordOf).drop 1 :=
  C8_wrap_retains_recent mkWrap2 (List.replicate 2 BtEvent.zero)
    [(env0, "a", none), (env0, "b", none), (env0, "c", none)]
    (by decide) rfl rfl (by decide) (by decide)

/-- A display step moves the first_msecs and last_msecs locals exactly
as pairStep does, independently of the threshold and of what was
printed. -/
theorem dispStep_proj (freq d : Nat) (tbl : List BtEvent) (a : DispState)
    (i : Nat) :
    ((dispStep freq d tbl a i).first_msecs,
      (dispStep freq d tbl a i).last_msecs) =
      pairStep freq tbl (a.first_msecs, a.last_msecs) i := by
  unfold dispStep pairStep numStep
  by_cases h : (tbl.getD i BtEvent.zero).tsc = 0
  · simp only [if_pos h]
  · simp only [if_neg h]

/-- Folding display steps and projecting to the first_msecs and
last_msecs pair equals folding pairStep. -/
theorem foldl_dispStep_proj (freq d : Nat) (tbl : List BtEvent) :
    ∀ (l : List Nat) (a : DispState),
      ((l.foldl (dispStep freq d tbl) a).first_msecs,
        (l.foldl (dispStep freq d tbl) a).last_msecs) =
        l.foldl (pairStep freq tbl) (a.first_msecs, a.last_msecs) := by
  intro l
  induction l with
  | nil => intro a; rfl
  | cons i rest ih =>
      intro a
      rw [List.foldl_cons, List.foldl_cons, ih, dispStep_proj]

/-- Folding pairStep over slot indices equals folding numStep over the
msecs values of the visited non-sentinel entries. -/
theorem foldl_pairStep_filterMap (freq : Nat) (tbl : List BtEvent) :
    ∀ (l : List Nat) (p : Nat × Nat),
      l.foldl (pairStep freq tbl) p =
        (l.filterMap (fun i =>
          let e := tbl.getD i BtEvent.zero
          if e.tsc = 0 then none
          else some (e.tsc * 1000 / freq))).foldl numStep p := by
  intro l
  induction l with
  | nil => intro p; rfl
  | cons i rest ih =>
      intro p
      rw [List.foldl_cons, List.filterMap_cons]
      by_cases h : (tbl.getD i BtEvent.zero).tsc = 0
      · simp only [h, pairStep, ih]
        simp
      · simp only [h, pairStep, ih]
        simp

/-- The first component of the numStep fold is the footFirst fold. -/
theorem numFold_fst : ∀ (l : List Nat) (p : Nat × Nat),
    (l.foldl numStep p).1 =
      l.foldl (fun f m => if f = 0 ∨ m < f then m else f) p.1 := by
  intro l
  induction l with
  | nil => intro p; rfl
  | cons m rest ih =>
      intro p
      rw [List.foldl_cons, List.foldl_cons, ih]
      rfl

/-- The second component of the numStep fold is the last visited msecs
value. -/
theorem numFold_snd : ∀ (l : List Nat) (p : Nat × Nat),
    (l.foldl numStep p).2 = l.getLastD p.2 := by
  intro l
  induction l with
  | nil => intro p; rfl
  | cons m rest ih =>
      intro p
      rw [List.foldl_cons, List.getLastD_cons, ih]
      rfl

/-- The footer total the renderer prints, in closed form: the last
visited msecs value minus the running minimum footFirst, clamped at 0,
regardless of the threshold. -/
theorem display_total (freq dthres : Nat) (btp : BT) :
    (boottrace_display freq dthres btp).2 =
      (if footFirst (visitedMsecs freq btp) <
          (visitedMsecs freq btp).getLastD 0 then
        (visitedMsecs freq btp).getLastD 0 -
          footFirst (visitedMsecs freq btp)
      else 0) := by
  unfold boottrace_display
  dsimp only
  have hp := foldl_dispStep_proj freq dthres (btp.table.getD [])
    (dispIdxs btp) dispInit
  rw [foldl_pairStep_filterMap] at hp
  have hfst := congrArg Prod.fst hp
  have hsnd := congrArg Prod.snd hp
  dsimp only at hfst hsnd
  rw [numFold_fst] at hfst
  rw [numFold_snd] at hsnd
  unfold visitedMsecs footFirst
  rw [hfst, hsnd]
  rfl

/-- C7 counterexample: on the table with visited msecs 10, 5, 20 the
renderer reports a footer total of 15 (last value 20 minus the running
minimum 5), while the claim computes last minus first visited, 20 minus
10 equals 10. -/
theorem C7_counterexample :
    (boottrace_display 1000 0 tblC7).2 = 15 ∧
    specClaimTotal 1000 tblC7 = 10 ∧
    (boottrace_display 1000 0 tblC7).2 ≠ specClaimTotal 1000 tblC7 := by
  refine ⟨rfl, rfl, by decide⟩

/-- C7 amended: for every table, frequency and threshold, the footer
total equals the last visited msecs value minus the running minimum of
visited msecs values that the loop tracks (a minimum a zero msecs value
restarts; equal to the first visited value whenever the visited values
are positive and non-decreasing), clamped at 0 when nothing was visited
or nothing later exceeded the minimum, and this total never depends on
the threshold, hence not on how many rows were flushed. -/
theorem C7_amended_footer :
    ∀ (freq dthres : Nat) (btp : BT),
      (boottrace_display freq dthres btp).2 =
        (if footFirst (visitedMsecs freq btp) <
            (visitedMsecs freq btp).getLastD 0 then
          (visitedMsecs freq btp).getLastD 0 -
            footFirst (visitedMsecs freq btp)
        else 0) ∧
      ∀ d2, (boottrace_display freq dthres btp).2 =
        (boottrace_display freq d2 btp).2 := by
  intro freq d btp
  refine ⟨display_total freq d btp, fun d2 => ?_⟩
  rw [display_total freq d btp, display_total freq d2 btp]

end Boottrace
